import Mathlib

/-!
Verification of a command-line chat agent with three local file tools.

This file shallowly embeds the tool handlers of the repository
(src/read_file_tool.py, src/list_files_tool.py, src/edit_file_tool.py) and the
tool-dispatch part of the agent loop (src/main.py), and proves properties of
the embedded code.

Modelling conventions:
- The filesystem is an association list from path strings to entries (regular
  file with full text content, or directory).  The OS boundary (os.path.exists,
  os.path.isdir, os.listdir, os.makedirs, open for reading and writing) is
  embedded with its POSIX failure modes: opening a directory for reading fails,
  creating a file under a path component that is a regular file fails, and the
  os error message texts are reproduced.  The empty string never names an
  existing path (os.path.exists("") is False in Python) and "." always names
  the current working directory.
- Python str.replace is embedded as a fuel-indexed scanner over character
  lists (fuel = length + 1 always suffices because every step consumes at
  least one character); the empty-pattern case follows Python, inserting the
  replacement before every character and once at the end.
- Tool input arrives as a JSON text string, an already-decoded dictionary,
  UTF-8 bytes of JSON text, or some other unsupported representation; this is
  the tagged union ToolArg.  json.loads is embedded as a parser of flat JSON
  objects with string keys and string values (the shape of every tool input,
  per the declared schemas); json decode error texts are abbreviated, which no
  theorem below depends on.  UTF-8 decoding of a byte list is embedded in
  full (multi-byte sequences, continuation, overlong and surrogate checks).
- Exceptions are modelled as their message strings; a handler returns a
  (result text, optional error) pair together with the filesystem after the
  call.  The handlers are total Lean functions, so the embedded code cannot
  raise at all; the claims about error propagation are then claims about the
  returned pairs.
-/

/-! ## Python string comparison (list.sort on str) -/

/-- Lexicographic less-or-equal on character lists by code point.  This is the
comparison Python uses for str, hence the order produced by list.sort. -/
def lexLeb : List Char → List Char → Bool
  | [], _ => true
  | _ :: _, [] => false
  | a :: as, b :: bs =>
    if a.toNat < b.toNat then true
    else if b.toNat < a.toNat then false
    else lexLeb as bs

/-- Python string less-or-equal. -/
def strLeb (a b : String) : Bool := lexLeb a.data b.data

/-- The sorting relation used to embed Python list.sort on strings. -/
def strLeR (a b : String) : Prop := strLeb a b = true

instance : DecidableRel strLeR := fun a b =>
  inferInstanceAs (Decidable (strLeb a b = true))

theorem lexLeb_total (as bs : List Char) : lexLeb as bs = true ∨ lexLeb bs as = true := by
  induction as generalizing bs with
  | nil => left; rfl
  | cons a as ih =>
    cases bs with
    | nil => right; rfl
    | cons b bs =>
      simp only [lexLeb]
      rcases Nat.lt_trichotomy a.toNat b.toNat with h | h | h
      · left; simp [h]
      · have h1 : ¬ a.toNat < b.toNat := by omega
        have h2 : ¬ b.toNat < a.toNat := by omega
        rcases ih bs with h3 | h3 <;> simp_all
      · right; simp [h, Nat.lt_asymm h]

theorem lexLeb_trans (as bs cs : List Char) (h1 : lexLeb as bs = true)
    (h2 : lexLeb bs cs = true) : lexLeb as cs = true := by
  induction as generalizing bs cs with
  | nil => rfl
  | cons a as ih =>
    cases bs with
    | nil => simp [lexLeb] at h1
    | cons b bs =>
      cases cs with
      | nil => simp [lexLeb] at h2
      | cons c cs =>
        simp only [lexLeb] at h1 h2 ⊢
        split_ifs at h1 h2 ⊢ <;>
          first
            | rfl
            | omega
            | exact h1
            | exact h2
            | exact ih bs cs h1 h2

instance : IsTotal String strLeR :=
  ⟨fun a b => lexLeb_total a.data b.data⟩

instance : IsTrans String strLeR :=
  ⟨fun a b c => lexLeb_trans a.data b.data c.data⟩

/-! ## Python str.replace -/

/-- Occurrence test for a pattern inside a character list; embeds the Python
substring relation (pat in s). -/
def listOccurs (pat : List Char) : List Char → Bool
  | [] => pat.isPrefixOf []
  | c :: rest => pat.isPrefixOf (c :: rest) || listOccurs pat rest

/-- Python substring test: old occurs somewhere inside s. -/
def strOccurs (pat s : String) : Bool := listOccurs pat.data s.data

/-- Fuel-indexed scanner embedding CPython str.replace for a non-empty
pattern: replace the leftmost occurrence and continue scanning after the
replacement, left to right, non-overlapping.  Fuel length + 1 always
suffices because every step consumes at least one character. -/
def listReplaceAux (pat rep : List Char) : Nat → List Char → List Char
  | 0, l => l
  | fuel + 1, l =>
    if pat ≠ [] ∧ pat.isPrefixOf l then
      rep ++ listReplaceAux pat rep fuel (l.drop pat.length)
    else
      match l with
      | [] => []
      | c :: rest => c :: listReplaceAux pat rep fuel rest

/-- Python str.replace(old, new): literal (non-regex) replacement of every
occurrence, leftmost first, non-overlapping.  For an empty old the
replacement is inserted before every character and once at the end, exactly
as CPython does. -/
def pyReplace (s old new : String) : String :=
  if old.data = [] then
    String.join (s.data.map (fun c => new ++ String.mk [c])) ++ new
  else
    String.mk (listReplaceAux old.data new.data (s.data.length + 1) s.data)

/-! ## Filesystem model -/

/-- A filesystem entry: a regular file with its full text content, or a
directory. -/
inductive Entry where
  | file (content : String)
  | dir
deriving DecidableEq, Repr

/-- The filesystem: an association list from path strings to entries. -/
abbrev FS := List (String × Entry)

/-- Path lookup.  The empty string never names an existing path and "."
always names the current working directory. -/
def FS.lookup (fs : FS) (p : String) : Option Entry :=
  if p = "" then none
  else if p = "." then some Entry.dir
  else
    match fs.find? (fun x => x.1 == p) with
    | some x => some x.2
    | none => none

/-- Create or overwrite an entry. -/
def FS.insertE (fs : FS) (p : String) (e : Entry) : FS :=
  (p, e) :: fs.filter (fun x => !(x.1 == p))

/-- os.path.exists. -/
def pathExistsB (fs : FS) (p : String) : Bool := (FS.lookup fs p).isSome

/-- os.path.isdir. -/
def isDirB (fs : FS) (p : String) : Bool := FS.lookup fs p == some Entry.dir

/-- Split a character list on a separator character (Python str.split with a
one-character separator). -/
def splitOnChar (sep : Char) : List Char → List (List Char)
  | [] => [[]]
  | c :: rest =>
    if c = sep then [] :: splitOnChar sep rest
    else
      match splitOnChar sep rest with
      | h :: t => (c :: h) :: t
      | [] => [[c]]

/-- The slash-separated components of a path. -/
def pathParts (p : String) : List String := (splitOnChar '/' p.data).map String.mk

/-- os.path.dirname for ordinary relative paths: everything before the last
slash, or the empty string when there is no slash. -/
def dirname (p : String) : String :=
  let parts := pathParts p
  if parts.length ≤ 1 then "" else String.intercalate "/" parts.dropLast

/-- The final path component (the entry name a directory listing shows). -/
def baseName (p : String) : String := (pathParts p).getLastD p

/-- The chain of ancestor paths os.makedirs(d) creates, shortest first:
for a/b/c this is a, a/b, a/b/c. -/
def ancestorPaths (d : String) : List String :=
  (List.range (pathParts d).length).map
    (fun k => String.intercalate "/" ((pathParts d).take (k + 1)))

/-- One step of os.makedirs with exist_ok=True: an existing directory is
kept, an existing regular file raises FileExistsError (exist_ok only
suppresses the error for directories), a missing path gets a new directory.
After a failure the remaining steps do nothing, but directories already
created stay (makedirs raises midway leaving partial state). -/
def mkdirStep (acc : FS × Option String) (q : String) : FS × Option String :=
  match acc with
  | (fs, some e) => (fs, some e)
  | (fs, none) =>
    match FS.lookup fs q with
    | some Entry.dir => (fs, none)
    | some (Entry.file _) => (fs, some ("[Errno 17] File exists: \x27" ++ q ++ "\x27"))
    | none => (FS.insertE fs q Entry.dir, none)

/-- os.makedirs(d, exist_ok=True): create every ancestor of d in order,
returning the filesystem after the attempt and the error message if one
step raised. -/
def FS.makedirs (fs : FS) (d : String) : FS × Option String :=
  (ancestorPaths d).foldl mkdirStep (fs, none)

/-- open(p, encoding="utf-8") followed by read(): the full content of a
regular file; opening a directory raises IsADirectoryError; a missing path
raises FileNotFoundError. -/
def FS.openRead (fs : FS) (p : String) : Except String String :=
  match FS.lookup fs p with
  | some (Entry.file c) => Except.ok c
  | some Entry.dir => Except.error ("[Errno 21] Is a directory: \x27" ++ p ++ "\x27")
  | none => Except.error ("[Errno 2] No such file or directory: \x27" ++ p ++ "\x27")

/-- open(p, "w", encoding="utf-8") followed by write(c): overwriting an
existing regular file always succeeds; opening a directory for writing
raises IsADirectoryError; for a new file the parent must be an existing
directory (the current working directory when the path has no slash). -/
def FS.openWrite (fs : FS) (p : String) (c : String) : Except String FS :=
  match FS.lookup fs p with
  | some (Entry.file _) => Except.ok (FS.insertE fs p (Entry.file c))
  | some Entry.dir => Except.error ("[Errno 21] Is a directory: \x27" ++ p ++ "\x27")
  | none =>
    if p = "" then
      Except.error "[Errno 2] No such file or directory: \x27\x27"
    else
      let d := dirname p
      if d = "" then Except.ok (FS.insertE fs p (Entry.file c))
      else
        match FS.lookup fs d with
        | some Entry.dir => Except.ok (FS.insertE fs p (Entry.file c))
        | some (Entry.file _) =>
          Except.error ("[Errno 20] Not a directory: \x27" ++ p ++ "\x27")
        | none =>
          Except.error ("[Errno 2] No such file or directory: \x27" ++ p ++ "\x27")

/-! ## JSON serialization (json.dumps for the list_files result shape) -/

/-- Lowercase hexadecimal digit. -/
def hexDigitChar (n : Nat) : Char :=
  if n < 10 then Char.ofNat (48 + n) else Char.ofNat (87 + n)

/-- A JSON \uXXXX escape for a code unit. -/
def uEscape (n : Nat) : String :=
  String.mk ['\\', 'u', hexDigitChar (n / 4096 % 16), hexDigitChar (n / 256 % 16),
    hexDigitChar (n / 16 % 16), hexDigitChar (n % 16)]

/-- How json.dumps (with its default ensure_ascii=True) renders one character
inside a string literal. -/
def jsonEscapeChar (c : Char) : String :=
  if c = Char.ofNat 34 then "\\\""
  else if c = '\\' then "\\\\"
  else if c.toNat = 10 then "\\n"
  else if c.toNat = 9 then "\\t"
  else if c.toNat = 13 then "\\r"
  else if c.toNat = 8 then "\\b"
  else if c.toNat = 12 then "\\f"
  else if c.toNat < 32 then uEscape c.toNat
  else if c.toNat < 127 then String.mk [c]
  else if c.toNat ≤ 65535 then uEscape c.toNat
  else
    uEscape (55296 + (c.toNat - 65536) / 1024) ++ uEscape (56320 + (c.toNat - 65536) % 1024)

/-- json.dumps rendering of a string value. -/
def jsonQuote (s : String) : String :=
  "\"" ++ String.join (s.data.map jsonEscapeChar) ++ "\""

/-- json.dumps rendering, with its default separators, of the dictionary
the list_files tool returns: files (a list of strings), directory (a
string) and count (an integer). -/
def listingJson (files : List String) (dir : String) (count : Nat) : String :=
  "\x7b\"files\": [" ++ String.intercalate ", " (files.map jsonQuote) ++
    "], \"directory\": " ++ jsonQuote dir ++ ", \"count\": " ++ toString count ++ "\x7d"

/-! ## JSON parsing (json.loads for flat string-valued objects) -/

/-- Skip JSON whitespace. -/
def skipWs : List Char → List Char
  | [] => []
  | c :: rest =>
    if c.toNat = 32 ∨ c.toNat = 9 ∨ c.toNat = 10 ∨ c.toNat = 13 then skipWs rest
    else c :: rest

/-- Value of one hexadecimal digit. -/
def hexVal (c : Char) : Option Nat :=
  if 48 ≤ c.toNat ∧ c.toNat ≤ 57 then some (c.toNat - 48)
  else if 97 ≤ c.toNat ∧ c.toNat ≤ 102 then some (c.toNat - 87)
  else if 65 ≤ c.toNat ∧ c.toNat ≤ 70 then some (c.toNat - 55)
  else none

/-- Parse the remainder of a JSON string literal (the opening quote already
consumed), handling the standard escapes; returns the decoded characters and
the rest of the input. -/
def parseJString : Nat → List Char → Except String (List Char × List Char)
  | 0, _ => Except.error "Unterminated string"
  | _ + 1, [] => Except.error "Unterminated string"
  | fuel + 1, c :: rest =>
    if c = Char.ofNat 34 then Except.ok ([], rest)
    else if c = '\\' then
      match rest with
      | [] => Except.error "Unterminated string"
      | e :: rest2 =>
        if e = Char.ofNat 34 ∨ e = '\\' ∨ e = '/' then
          match parseJString fuel rest2 with
          | Except.ok (s, r) => Except.ok (e :: s, r)
          | Except.error msg => Except.error msg
        else if e = 'n' ∨ e = 't' ∨ e = 'r' ∨ e = 'b' ∨ e = 'f' then
          let decoded : Char :=
            if e = 'n' then Char.ofNat 10
            else if e = 't' then Char.ofNat 9
            else if e = 'r' then Char.ofNat 13
            else if e = 'b' then Char.ofNat 8
            else Char.ofNat 12
          match parseJString fuel rest2 with
          | Except.ok (s, r) => Except.ok (decoded :: s, r)
          | Except.error msg => Except.error msg
        else if e = 'u' then
          match rest2 with
          | h1 :: h2 :: h3 :: h4 :: rest3 =>
            match hexVal h1, hexVal h2, hexVal h3, hexVal h4 with
            | some a, some b, some c4, some d =>
              let cp := a * 4096 + b * 256 + c4 * 16 + d
              if 55296 ≤ cp ∧ cp < 57344 then Except.error "Unsupported surrogate escape"
              else
                match parseJString fuel rest3 with
                | Except.ok (s, r) => Except.ok (Char.ofNat cp :: s, r)
                | Except.error msg => Except.error msg
            | _, _, _, _ => Except.error "Invalid hex escape"
          | _ => Except.error "Invalid hex escape"
        else Except.error "Invalid escape"
    else if c.toNat < 32 then Except.error "Invalid control character"
    else
      match parseJString fuel rest with
      | Except.ok (s, r) => Except.ok (c :: s, r)
      | Except.error msg => Except.error msg

/-- Dictionary insertion with Python semantics: a later binding of the same
key overwrites the earlier one. -/
def insertKV (d : List (String × String)) (k v : String) : List (String × String) :=
  d.filter (fun x => !(x.1 == k)) ++ [(k, v)]

/-- Parse the members of a JSON object with string keys and string values
(the shape of every tool input), positioned after the opening brace of a
non-empty object; returns the accumulated dictionary and the rest of the
input after the closing brace. -/
def parseMembers : Nat → List (String × String) → List Char →
    Except String (List (String × String) × List Char)
  | 0, _, _ => Except.error "Out of fuel"
  | fuel + 1, acc, l =>
    match skipWs l with
    | [] => Except.error "Unterminated object"
    | c :: rest =>
      if c = Char.ofNat 34 then
        match parseJString (rest.length + 1) rest with
        | Except.error e => Except.error e
        | Except.ok (k, r1) =>
          match skipWs r1 with
          | [] => Except.error "Unterminated object"
          | c2 :: r2 =>
            if c2 = ':' then
              match skipWs r2 with
              | [] => Except.error "Expecting value"
              | c3 :: r3 =>
                if c3 = Char.ofNat 34 then
                  match parseJString (r3.length + 1) r3 with
                  | Except.error e => Except.error e
                  | Except.ok (v, r4) =>
                    let acc2 := insertKV acc (String.mk k) (String.mk v)
                    match skipWs r4 with
                    | [] => Except.error "Unterminated object"
                    | c5 :: r5 =>
                      if c5 = ',' then parseMembers fuel acc2 r5
                      else if c5 = Char.ofNat 125 then Except.ok (acc2, r5)
                      else Except.error "Expecting delimiter"
                else Except.error "Expecting string value"
            else Except.error "Expecting colon delimiter"
      else Except.error "Expecting property name"

/-- json.loads restricted to the tool input shape: one JSON object with
string keys and string values, surrounded by optional whitespace.  The
Python error texts carry positions; these messages are abbreviated, which
no theorem below depends on. -/
def jsonLoads (s : String) : Except String (List (String × String)) :=
  match skipWs s.data with
  | [] => Except.error "Expecting value"
  | c :: rest =>
    if c = Char.ofNat 123 then
      let body :=
        match skipWs rest with
        | [] => Except.error "Unterminated object"
        | c2 :: r2 =>
          if c2 = Char.ofNat 125 then Except.ok (([] : List (String × String)), r2)
          else parseMembers (s.data.length + 1) [] rest
      match body with
      | Except.ok (d, rem) =>
        if (skipWs rem).isEmpty then Except.ok d else Except.error "Extra data"
      | Except.error e => Except.error e
    else Except.error "Expecting value"

/-! ## UTF-8 decoding (bytes.decode for byte inputs) -/

/-- A UTF-8 continuation byte. -/
def contByte (b : Nat) : Bool := decide (128 ≤ b ∧ b < 192)

/-- UTF-8 decoding of a byte list, rejecting invalid start bytes, truncated
sequences, bad continuation bytes, overlong encodings, surrogates and
out-of-range code points, as Python bytes.decode("utf-8") does.  Fuel
length + 1 always suffices because every step consumes at least one byte. -/
def utf8DecodeAux : Nat → List Nat → Except String (List Char)
  | 0, [] => Except.ok []
  | 0, _ :: _ => Except.error "utf-8 decode out of fuel"
  | _ + 1, [] => Except.ok []
  | fuel + 1, b :: rest =>
    if b < 128 then
      match utf8DecodeAux fuel rest with
      | Except.ok cs => Except.ok (Char.ofNat b :: cs)
      | Except.error e => Except.error e
    else if b < 192 then Except.error "utf-8 codec error: invalid start byte"
    else if b < 224 then
      match rest with
      | [] => Except.error "utf-8 codec error: unexpected end of data"
      | b1 :: rest2 =>
        if contByte b1 then
          let cp := (b - 192) * 64 + (b1 - 128)
          if cp < 128 then Except.error "utf-8 codec error: overlong encoding"
          else
            match utf8DecodeAux fuel rest2 with
            | Except.ok cs => Except.ok (Char.ofNat cp :: cs)
            | Except.error e => Except.error e
        else Except.error "utf-8 codec error: invalid continuation byte"
    else if b < 240 then
      match rest with
      | b1 :: b2 :: rest2 =>
        if contByte b1 && contByte b2 then
          let cp := (b - 224) * 4096 + (b1 - 128) * 64 + (b2 - 128)
          if cp < 2048 then Except.error "utf-8 codec error: overlong encoding"
          else if 55296 ≤ cp ∧ cp < 57344 then
            Except.error "utf-8 codec error: surrogate not allowed"
          else
            match utf8DecodeAux fuel rest2 with
            | Except.ok cs => Except.ok (Char.ofNat cp :: cs)
            | Except.error e => Except.error e
        else Except.error "utf-8 codec error: invalid continuation byte"
      | _ => Except.error "utf-8 codec error: unexpected end of data"
    else if b < 245 then
      match rest with
      | b1 :: b2 :: b3 :: rest2 =>
        if contByte b1 && contByte b2 && contByte b3 then
          let cp := (b - 240) * 262144 + (b1 - 128) * 4096 + (b2 - 128) * 64 + (b3 - 128)
          if cp < 65536 then Except.error "utf-8 codec error: overlong encoding"
          else if 1114111 < cp then Except.error "utf-8 codec error: code point out of range"
          else
            match utf8DecodeAux fuel rest2 with
            | Except.ok cs => Except.ok (Char.ofNat cp :: cs)
            | Except.error e => Except.error e
        else Except.error "utf-8 codec error: invalid continuation byte"
      | _ => Except.error "utf-8 codec error: unexpected end of data"
    else Except.error "utf-8 codec error: invalid start byte"

/-- bytes.decode("utf-8"). -/
def utf8Decode (bs : List Nat) : Except String String :=
  match utf8DecodeAux (bs.length + 1) bs with
  | Except.ok cs => Except.ok (String.mk cs)
  | Except.error e => Except.error e

/-! ## The tool input boundary -/

/-- The raw input a tool handler receives: a JSON text string, an
already-decoded dictionary, UTF-8 bytes holding JSON text, or a value of
some other type (carrying the printed type name used in the error
message). -/
inductive ToolArg where
  | jsonText (s : String)
  | dict (d : List (String × String))
  | bytes (bs : List Nat)
  | other (typeName : String)
deriving DecidableEq

/-- dict.get(k, dflt). -/
def dictGetD (d : List (String × String)) (k dflt : String) : String :=
  match d.find? (fun x => x.1 == k) with
  | some x => x.2
  | none => dflt

/-- k in dict. -/
def dictHasKey (d : List (String × String)) (k : String) : Bool :=
  d.any (fun x => x.1 == k)

/-- The input-parsing block that opens each of the three tool handlers
(textually identical in read_file, list_files and edit_file): a string is
parsed as JSON, a dictionary is used directly, bytes are decoded as UTF-8
and then parsed as JSON, and anything else is the unknown-input-format
error.  A JSON parse failure becomes the Invalid JSON input error of the
JSONDecodeError handler; a decode failure is caught by the generic handler
and its message returned as is. -/
def decodeInput : ToolArg → Except String (List (String × String))
  | ToolArg.jsonText s =>
    match jsonLoads s with
    | Except.ok d => Except.ok d
    | Except.error e => Except.error ("Invalid JSON input: " ++ e)
  | ToolArg.dict d => Except.ok d
  | ToolArg.bytes bs =>
    match utf8Decode bs with
    | Except.ok s =>
      match jsonLoads s with
      | Except.ok d => Except.ok d
      | Except.error e => Except.error ("Invalid JSON input: " ++ e)
    | Except.error e => Except.error e
  | ToolArg.other t => Except.error ("Unknown input format: " ++ t)

/-! ## The read_file tool (src/read_file_tool.py) -/

/-- Body of read_file after input parsing: require the path field, fail with
File not found when the path does not exist, otherwise open and read; an os
error raised by open (for example on a directory) is caught by the generic
handler and returned in the error slot. -/
def read_file_core (fs : FS) (input_dict : List (String × String)) :
    (String × Option String) × FS :=
  if !dictHasKey input_dict "path" then
    (("", some "No \x27path\x27 field in input"), fs)
  else
    let file_path := dictGetD input_dict "path" ""
    if !pathExistsB fs file_path then
      (("", some ("File not found: " ++ file_path)), fs)
    else
      match FS.openRead fs file_path with
      | Except.ok content => ((content, none), fs)
      | Except.error e => (("", some e), fs)

/-- The read_file tool handler. -/
def read_file (fs : FS) (input_data : ToolArg) : (String × Option String) × FS :=
  match decodeInput input_data with
  | Except.error e => (("", some e), fs)
  | Except.ok d => read_file_core fs d

/-! ## The list_files tool (src/list_files_tool.py) -/

/-- os.listdir over the filesystem model: the names of the immediate
children of a directory, in storage order (the on-disk order Python sees
before sorting).  Children of the current directory "." are the entries
whose dirname is empty. -/
def childNames (fs : FS) (dir_path : String) : List String :=
  fs.filterMap (fun x =>
    if dirname x.1 = (if dir_path = "." then "" else dir_path) ∧ x.1 ≠ "" then
      some (baseName x.1)
    else none)

/-- os.path.join followed by the OS resolving the path against the model
(os.path.join(".", a) is ./a, which names the same entry as a). -/
def joinPath (d item : String) : String :=
  if d = "." then item else d ++ "/" ++ item

/-- The list_files tool handler.  The PermissionError branch of the source
is dead in this model, which has no permission state. -/
def list_files (fs : FS) (input_data : ToolArg) : (String × Option String) × FS :=
  match decodeInput input_data with
  | Except.error e => (("", some e), fs)
  | Except.ok input_dict =>
    let dir_path := dictGetD input_dict "path" "."
    if !pathExistsB fs dir_path then
      (("", some ("Directory not found: " ++ dir_path)), fs)
    else if !isDirB fs dir_path then
      (("", some ("Path is not a directory: " ++ dir_path)), fs)
    else
      let files := (childNames fs dir_path).map
        (fun item => if isDirB fs (joinPath dir_path item) then item ++ "/" else item)
      let sorted := List.insertionSort strLeR files
      ((listingJson sorted dir_path sorted.length, none), fs)

/-! ## The edit_file tool (src/edit_file_tool.py) -/

/-- create_new_file: make the missing parent directories, then write the
content.  The message reports success or failure; a failure is reported in
the message text (the caller still attaches no error), and directories
already created before the failure remain. -/
def create_new_file (fs : FS) (file_path content : String) : String × FS :=
  let dir_path := dirname file_path
  let step1 : FS × Option String :=
    if dir_path ≠ "" ∧ dir_path ≠ "." then FS.makedirs fs dir_path else (fs, none)
  match step1 with
  | (fs1, some e) => ("Failed to create file: " ++ e, fs1)
  | (fs1, none) =>
    match FS.openWrite fs1 file_path content with
    | Except.ok fs2 => ("Successfully created file " ++ file_path, fs2)
    | Except.error e => ("Failed to create file: " ++ e, fs1)

/-- Body of edit_file after input parsing: validate, create when the file is
missing and old_str is empty, otherwise read, replace every occurrence,
reject a no-match edit, and write back. -/
def edit_file_core (fs : FS) (input_dict : List (String × String)) :
    (String × Option String) × FS :=
  let file_path := dictGetD input_dict "path" ""
  let old_str := dictGetD input_dict "old_str" ""
  let new_str := dictGetD input_dict "new_str" ""
  if file_path = "" ∨ old_str = new_str then
    (("", some "Invalid input parameters"), fs)
  else if !pathExistsB fs file_path then
    if old_str = "" then
      let r := create_new_file fs file_path new_str
      ((r.1, none), r.2)
    else
      (("", some ("File not found: " ++ file_path)), fs)
  else
    match FS.openRead fs file_path with
    | Except.error e => (("", some ("Failed to read file: " ++ e)), fs)
    | Except.ok old_content =>
      let new_content := pyReplace old_content old_str new_str
      if old_content = new_content ∧ old_str ≠ "" then
        (("", some "old_str not found in file"), fs)
      else
        match FS.openWrite fs file_path new_content with
        | Except.ok fs2 => (("OK", none), fs2)
        | Except.error e => (("", some ("Failed to write file: " ++ e)), fs)

/-- The edit_file tool handler. -/
def edit_file (fs : FS) (input_data : ToolArg) : (String × Option String) × FS :=
  match decodeInput input_data with
  | Except.error e => (("", some e), fs)
  | Except.ok d => edit_file_core fs d

/-! ## The agent loop turn handling (src/main.py) -/

/-- A tool descriptor as the agent holds it: a name and the handler. -/
structure ToolDefinition where
  name : String
  fn : FS → ToolArg → (String × Option String) × FS

/-- One content block of a model turn: plain text, or a tool invocation
request carrying an id, a tool name and the raw input. -/
inductive ContentBlock where
  | text (s : String)
  | toolUse (id name : String) (input : ToolArg)

/-- A tool_result block: the id of the originating tool_use block, the
content fed back to the model, and the error flag. -/
structure ToolResultBlock where
  tool_use_id : String
  content : String
  is_error : Bool
deriving DecidableEq

/-- Agent.execute_tool: look the tool up by name (an unknown name yields the
synthetic tool-not-found error result), run it, and wrap the outcome as a
tool_result block carrying the id of the request.  A tool error becomes
content str(error) with is_error true; a success becomes the response with
is_error false. -/
def execute_tool (tools : List ToolDefinition) (fs : FS) (tool_id tool_name : String)
    (tool_input : ToolArg) : ToolResultBlock × FS :=
  match tools.find? (fun t => t.name == tool_name) with
  | none => ({ tool_use_id := tool_id, content := "tool not found", is_error := true }, fs)
  | some tool_def =>
    let r := tool_def.fn fs tool_input
    match r.1.2 with
    | some e => ({ tool_use_id := tool_id, content := e, is_error := true }, r.2)
    | none => ({ tool_use_id := tool_id, content := r.1.1, is_error := false }, r.2)

/-- The tool-dispatch pass of one model turn in Agent.run: walk the content
blocks in order, execute every tool_use block synchronously, and collect
the tool_result blocks in that same order (text blocks only print). -/
def processTurn (tools : List ToolDefinition) : FS → List ContentBlock →
    List ToolResultBlock × FS
  | fs, [] => ([], fs)
  | fs, ContentBlock.text _ :: rest => processTurn tools fs rest
  | fs, ContentBlock.toolUse id name input :: rest =>
    let r := execute_tool tools fs id name input
    let rs := processTurn tools r.2 rest
    (r.1 :: rs.1, rs.2)

/-- A follow-up message appended to the conversation. -/
structure Message where
  role : String
  content : List ToolResultBlock
deriving DecidableEq

/-- What Agent.run appends after dispatching one model turn: nothing when no
tool was used (the loop returns to awaiting user input), otherwise exactly
one user-role message holding all collected tool_result blocks. -/
def turnFollowUp (tools : List ToolDefinition) (fs : FS) (blocks : List ContentBlock) :
    List Message :=
  let rs := (processTurn tools fs blocks).1
  if rs.isEmpty then [] else [{ role := "user", content := rs }]

/-- The ids of the tool_use blocks of a turn, in order. -/
def toolUseIds (blocks : List ContentBlock) : List String :=
  blocks.filterMap (fun b =>
    match b with
    | ContentBlock.toolUse id _ _ => some id
    | _ => none)

/-- The three tools of the agent, as registered in main. -/
def agentTools : List ToolDefinition :=
  [{ name := "read_file", fn := read_file },
   { name := "list_files", fn := list_files },
   { name := "edit_file", fn := edit_file }]

/-! ## Basic lemmas about the model -/

theorem strMk_data (s : String) : String.mk s.data = s := by cases s; rfl

theorem data_inj {s t : String} (h : s.data = t.data) : s = t := by
  cases s; cases t; exact congrArg String.mk h

theorem data_eq_nil {s : String} (h : s.data = []) : s = "" := by
  apply data_inj; simp [h]

theorem find?_filter_key_ne (fs : FS) (p q : String) (hpq : p ≠ q) :
    List.find? (fun x => x.1 == q) (fs.filter (fun x => !(x.1 == p))) =
      List.find? (fun x => x.1 == q) fs := by
  induction fs with
  | nil => rfl
  | cons kv fs ih =>
    by_cases hk : kv.1 = p
    · have h1 : (kv.1 == p) = true := by simp [hk]
      have h2 : (kv.1 == q) = false := by simp [hk]; exact hpq
      simp [List.filter_cons, h1, List.find?_cons, h2, ih]
    · have h1 : (kv.1 == p) = false := by simp [hk]
      by_cases hq : kv.1 = q
      · have h2 : (kv.1 == q) = true := by simp [hq]
        simp [List.filter_cons, h1, List.find?_cons, h2]
      · have h2 : (kv.1 == q) = false := by simp [hq]
        simp [List.filter_cons, h1, List.find?_cons, h2, ih]

theorem lookup_insertE_self (fs : FS) (p : String) (e : Entry)
    (hp : p ≠ "") (hq : p ≠ ".") :
    FS.lookup (FS.insertE fs p e) p = some e := by
  simp [FS.lookup, FS.insertE, hp, hq, List.find?_cons]

theorem lookup_insertE_or (fs : FS) (p : String) (e : Entry) (q : String) :
    FS.lookup (FS.insertE fs p e) q = FS.lookup fs q
    ∨ FS.lookup (FS.insertE fs p e) q = some e := by
  by_cases h0 : q = ""
  · left; simp [FS.lookup, h0]
  by_cases h1 : q = "."
  · left; simp [FS.lookup, h0, h1]
  by_cases h2 : p = q
  · right; subst h2; simp [FS.lookup, FS.insertE, h0, h1, List.find?_cons]
  · left
    simp only [FS.lookup, FS.insertE, h0, h1, if_false, if_neg h0, if_neg h1]
    have h3 : (p == q) = false := by simp [h2]
    rw [List.find?_cons, h3, find?_filter_key_ne fs p q h2]

theorem lookup_foldl_mkdirStep (L : List String) (acc : FS × Option String) (q : String) :
    FS.lookup (L.foldl mkdirStep acc).1 q = FS.lookup acc.1 q
    ∨ FS.lookup (L.foldl mkdirStep acc).1 q = some Entry.dir := by
  induction L generalizing acc with
  | nil => left; rfl
  | cons p L ih =>
    have hstep : FS.lookup (mkdirStep acc p).1 q = FS.lookup acc.1 q
        ∨ FS.lookup (mkdirStep acc p).1 q = some Entry.dir := by
      rcases acc with ⟨fs, err⟩
      cases err with
      | some e => left; rfl
      | none =>
        simp only [mkdirStep]
        cases hl : FS.lookup fs p with
        | none => exact lookup_insertE_or fs p Entry.dir q
        | some en => cases en <;> simp
    rcases ih (mkdirStep acc p) with h | h
    · rcases hstep with h2 | h2
      · left; rw [List.foldl_cons, h, h2]
      · right; rw [List.foldl_cons, h, h2]
    · right; rw [List.foldl_cons, h]

theorem lookup_makedirs_or (fs : FS) (d q : String) :
    FS.lookup (FS.makedirs fs d).1 q = FS.lookup fs q
    ∨ FS.lookup (FS.makedirs fs d).1 q = some Entry.dir :=
  lookup_foldl_mkdirStep (ancestorPaths d) (fs, none) q

theorem openWrite_ok_eq {fs fs2 : FS} {p c : String}
    (h : FS.openWrite fs p c = Except.ok fs2) :
    fs2 = FS.insertE fs p (Entry.file c) := by
  unfold FS.openWrite at h
  cases hl : FS.lookup fs p with
  | some en =>
    cases en with
    | file old => rw [hl] at h; simp at h; exact h.symm
    | dir => rw [hl] at h; simp at h
  | none =>
    rw [hl] at h
    by_cases h0 : p = ""
    · simp [h0] at h
    · rw [if_neg h0] at h
      by_cases h1 : dirname p = ""
      · simp [h1] at h; exact h.symm
      · rw [if_neg h1] at h
        cases hd : FS.lookup fs (dirname p) with
        | some en =>
          cases en with
          | file old => rw [hd] at h; simp at h
          | dir => rw [hd] at h; simp at h; exact h.symm
        | none => rw [hd] at h; simp at h

/-! ## Lemmas about the embedded str.replace -/

theorem listReplaceAux_of_not_occurs (pat rep : List Char) (fuel : Nat) (l : List Char)
    (h : listOccurs pat l = false) : listReplaceAux pat rep fuel l = l := by
  induction fuel generalizing l with
  | zero => rfl
  | succ fuel ih =>
    cases l with
    | nil =>
      have hpre : pat.isPrefixOf ([] : List Char) = false := by
        simpa [listOccurs] using h
      simp [listReplaceAux, hpre]
    | cons c rest =>
      have h2 : pat.isPrefixOf (c :: rest) = false ∧ listOccurs pat rest = false := by
        simpa [listOccurs] using h
      simp [listReplaceAux, h2.1, ih rest h2.2]

theorem listReplaceAux_decomp (pat rep : List Char) (hpat : pat ≠ []) :
    ∀ fuel l, l.length < fuel → listOccurs pat l = true →
      ∃ pre suf fuel2, l = pre ++ pat ++ suf ∧ suf.length < fuel2 ∧
        listReplaceAux pat rep fuel l = pre ++ rep ++ listReplaceAux pat rep fuel2 suf := by
  intro fuel
  induction fuel with
  | zero => intro l hlen; omega
  | succ fuel ih =>
    intro l hlen hocc
    by_cases hpre : pat.isPrefixOf l = true
    · obtain ⟨suf, hsuf⟩ := List.isPrefixOf_iff_prefix.mp hpre
      have hplen : 1 ≤ pat.length := by
        cases pat with
        | nil => exact absurd rfl hpat
        | cons a as => simp
      have hllen : l.length = pat.length + suf.length := by
        rw [← hsuf]; simp
      refine ⟨[], suf, fuel, by simp [hsuf.symm], by omega, ?_⟩
      have hdrop : l.drop pat.length = suf := by
        rw [← hsuf]; exact List.drop_left pat suf
      simp [listReplaceAux, hpat, hpre, hdrop]
    · cases l with
      | nil => simp [listOccurs, hpre] at hocc
      | cons c rest =>
        have hocc2 : listOccurs pat rest = true := by
          simpa [listOccurs, hpre] using hocc
        have hlen2 : rest.length < fuel := by simp at hlen; omega
        obtain ⟨pre, suf, fuel2, he, hl, hr⟩ := ih rest hlen2 hocc2
        refine ⟨c :: pre, suf, fuel2, by simp [he], hl, ?_⟩
        simp [listReplaceAux, hpre, hr]

theorem listReplaceAux_length (pat rep : List Char) (hpat : pat ≠ []) :
    ∀ fuel l, ∃ k, (listReplaceAux pat rep fuel l).length + k * pat.length
      = l.length + k * rep.length := by
  intro fuel
  induction fuel with
  | zero => intro l; exact ⟨0, by simp [listReplaceAux]⟩
  | succ fuel ih =>
    intro l
    by_cases hpre : pat.isPrefixOf l = true
    · obtain ⟨k, hk⟩ := ih (l.drop pat.length)
      have hple : pat.length ≤ l.length :=
        (List.isPrefixOf_iff_prefix.mp hpre).length_le
      refine ⟨k + 1, ?_⟩
      have hmul1 : (k + 1) * pat.length = k * pat.length + pat.length := by
        rw [Nat.add_mul, Nat.one_mul]
      have hmul2 : (k + 1) * rep.length = k * rep.length + rep.length := by
        rw [Nat.add_mul, Nat.one_mul]
      simp only [listReplaceAux, if_pos (And.intro hpat hpre), List.length_append,
        List.length_drop] at hk ⊢
      omega
    · cases l with
      | nil => exact ⟨0, by simp [listReplaceAux, hpre]⟩
      | cons c rest =>
        obtain ⟨k, hk⟩ := ih rest
        refine ⟨k, ?_⟩
        simp only [listReplaceAux, hpre]
        simp only [List.length_cons]
        have : (if pat ≠ [] ∧ pat.isPrefixOf (c :: rest) = true then
            rep ++ listReplaceAux pat rep fuel ((c :: rest).drop pat.length)
          else c :: listReplaceAux pat rep fuel rest).length
            = (c :: listReplaceAux pat rep fuel rest).length := by
          rw [if_neg (by simp [hpre])]
        simp only [listReplaceAux] at this
        rw [if_neg (by simp [hpre])]
        simp only [List.length_cons]
        omega

theorem listReplaceAux_ne (pat rep : List Char) (hpat : pat ≠ []) (hne : rep ≠ pat)
    (l : List Char) (hocc : listOccurs pat l = true) :
    listReplaceAux pat rep (l.length + 1) l ≠ l := by
  intro heq
  obtain ⟨pre, suf, fuel2, he, hl, hr⟩ :=
    listReplaceAux_decomp pat rep hpat (l.length + 1) l (by omega) hocc
  have heq2 : pre ++ (rep ++ listReplaceAux pat rep fuel2 suf)
      = pre ++ (pat ++ suf) := by
    have h1 : pre ++ rep ++ listReplaceAux pat rep fuel2 suf = pre ++ pat ++ suf :=
      hr.symm.trans (heq.trans he)
    simpa [List.append_assoc] using h1
  have heq3 : rep ++ listReplaceAux pat rep fuel2 suf = pat ++ suf :=
    List.append_cancel_left heq2
  by_cases hlen : rep.length = pat.length
  · exact hne (List.append_inj heq3 hlen).1
  · obtain ⟨k, hk⟩ := listReplaceAux_length pat rep hpat fuel2 suf
    have hlen2 := congrArg List.length heq3
    simp only [List.length_append] at hlen2
    have hx : k * pat.length + pat.length = k * rep.length + rep.length := by omega
    have hmul : (k + 1) * pat.length = (k + 1) * rep.length := by
      rw [Nat.add_mul, Nat.add_mul, Nat.one_mul, Nat.one_mul]; omega
    exact hlen ((Nat.eq_of_mul_eq_mul_left (Nat.succ_pos k) hmul).symm)

theorem listOccurs_nil_pat (l : List Char) : listOccurs [] l = true := by
  cases l <;> simp [listOccurs, List.isPrefixOf]

theorem pyReplace_of_not_occurs (s old new : String) (h : strOccurs old s = false) :
    pyReplace s old new = s := by
  by_cases hdata : old.data = []
  · exfalso
    have h2 : listOccurs old.data s.data = false := h
    rw [hdata, listOccurs_nil_pat] at h2
    simp at h2
  · unfold pyReplace
    rw [if_neg hdata, listReplaceAux_of_not_occurs old.data new.data _ s.data h]

theorem pyReplace_ne_self (s old new : String) (hold : old ≠ "") (hdiff : old ≠ new)
    (hocc : strOccurs old s = true) : pyReplace s old new ≠ s := by
  have hdata : old.data ≠ [] := fun h => hold (data_eq_nil h)
  have hrep : new.data ≠ old.data := fun h => hdiff (data_inj h).symm
  intro heq
  unfold pyReplace at heq
  rw [if_neg hdata] at heq
  have heq2 : listReplaceAux old.data new.data (s.data.length + 1) s.data = s.data :=
    congrArg String.data heq
  exact listReplaceAux_ne old.data new.data hdata hrep s.data hocc heq2

/-! ## Small evaluation lemmas for the tool bodies -/

theorem dict3_path (p o n : String) :
    dictGetD [("path", p), ("old_str", o), ("new_str", n)] "path" "" = p := rfl

theorem dict3_old (p o n : String) :
    dictGetD [("path", p), ("old_str", o), ("new_str", n)] "old_str" "" = o := rfl

theorem dict3_new (p o n : String) :
    dictGetD [("path", p), ("old_str", o), ("new_str", n)] "new_str" "" = n := rfl

theorem dict1_path (p dflt : String) : dictGetD [("path", p)] "path" dflt = p := rfl

theorem openRead_file {fs : FS} {path content : String}
    (hf : FS.lookup fs path = some (Entry.file content)) :
    FS.openRead fs path = Except.ok content := by
  unfold FS.openRead; rw [hf]

theorem openWrite_file {fs : FS} {path content : String}
    (hf : FS.lookup fs path = some (Entry.file content)) (c : String) :
    FS.openWrite fs path c = Except.ok (FS.insertE fs path (Entry.file c)) := by
  unfold FS.openWrite; rw [hf]

theorem lookup_ne_empty {fs : FS} {path : String} {e : Entry}
    (hf : FS.lookup fs path = some e) : path ≠ "" := by
  intro h; rw [h] at hf; simp [FS.lookup] at hf

theorem lookup_file_ne_dot {fs : FS} {path content : String}
    (hf : FS.lookup fs path = some (Entry.file content)) : path ≠ "." := by
  intro h; rw [h] at hf; simp [FS.lookup] at hf

theorem failed_ne_success (m p : String) :
    "Failed to create file: " ++ m ≠ "Successfully created file " ++ p := by
  intro h
  have h2 := congrArg (fun z => z.data.head?) h
  simp [String.data_append] at h2

/-! ## Claim theorems -/

/-- Claim C4 (confirmed): whenever the path is the empty string or old_str
equals new_str (including both empty), edit_file fails with the Invalid
input parameters error, regardless of whether the target file exists, and
the filesystem is unchanged. -/
theorem claim_c4 (fs : FS) (path old new : String) (h : path = "" ∨ old = new) :
    edit_file fs (ToolArg.dict [("path", path), ("old_str", old), ("new_str", new)]) =
      (("", some "Invalid input parameters"), fs) := by
  simp only [edit_file, decodeInput, edit_file_core, dict3_path, dict3_old, dict3_new]
  rw [if_pos h]

theorem claim_c4_witness :
    edit_file [("a.txt", Entry.file "x")]
      (ToolArg.dict [("path", "a.txt"), ("old_str", "q"), ("new_str", "q")]) =
      (("", some "Invalid input parameters"), [("a.txt", Entry.file "x")]) :=
  claim_c4 [("a.txt", Entry.file "x")] "a.txt" "q" "q" (Or.inr rfl)

/-- Claim C2 (confirmed): on an existing file, with old_str non-empty,
different from new_str, and occurring in the content, edit_file rewrites
the file to the global literal replacement of old_str by new_str (the
embedded Python str.replace) and returns exactly "OK" with no error. -/
theorem claim_c2 (fs : FS) (path old new content : String)
    (hf : FS.lookup fs path = some (Entry.file content))
    (hold : old ≠ "") (hdiff : old ≠ new) (hocc : strOccurs old content = true) :
    edit_file fs (ToolArg.dict [("path", path), ("old_str", old), ("new_str", new)]) =
      (("OK", none), FS.insertE fs path (Entry.file (pyReplace content old new))) := by
  have hp : path ≠ "" := lookup_ne_empty hf
  have hvalid : ¬ (path = "" ∨ old = new) := by tauto
  have hex : pathExistsB fs path = true := by simp [pathExistsB, hf]
  have hnomatch : ¬ (content = pyReplace content old new ∧ old ≠ "") := by
    intro hc
    exact pyReplace_ne_self content old new hold hdiff hocc hc.1.symm
  simp only [edit_file, decodeInput, edit_file_core, dict3_path, dict3_old, dict3_new]
  rw [if_neg hvalid, hex]
  simp only [Bool.not_true, Bool.false_eq_true, if_false]
  rw [openRead_file hf]
  simp only []
  rw [if_neg hnomatch, openWrite_file hf]

theorem claim_c2_witness :
    edit_file [("greeting.txt", Entry.file "hello hello")]
      (ToolArg.dict [("path", "greeting.txt"), ("old_str", "hello"), ("new_str", "world")]) =
      (("OK", none), [("greeting.txt", Entry.file "world world")]) :=
  (claim_c2 [("greeting.txt", Entry.file "hello hello")] "greeting.txt" "hello" "world"
    "hello hello" (by decide) (by decide) (by decide) (by decide)).trans (by decide)

/-- Claim C5 counterexample: the claim quantifies over every non-empty
old_str that does not occur in the file, but for old_str equal to new_str
(both "zzz" here, with the file existing and "zzz" not occurring in its
content "abc") the validation fires first, so the tool fails with Invalid
input parameters and not with the NoMatchFound error the claim states. -/
theorem claim_c5_counterexample :
    edit_file [("a.txt", Entry.file "abc")]
      (ToolArg.dict [("path", "a.txt"), ("old_str", "zzz"), ("new_str", "zzz")]) =
      (("", some "Invalid input parameters"), [("a.txt", Entry.file "abc")])
    ∧ ("Invalid input parameters" : String) ≠ "old_str not found in file" :=
  ⟨by decide, by decide⟩

/-- Claim C5 as amended (adding the validation precondition old_str different
from new_str, which the counterexample forces): on an existing file, a
non-empty old_str different from new_str that occurs nowhere in the content
makes edit_file fail with the NoMatchFound error, and the filesystem is
returned unchanged (no write happens on this path). -/
theorem claim_c5_amended (fs : FS) (path old new content : String)
    (hf : FS.lookup fs path = some (Entry.file content))
    (hold : old ≠ "") (hdiff : old ≠ new) (hocc : strOccurs old content = false) :
    edit_file fs (ToolArg.dict [("path", path), ("old_str", old), ("new_str", new)]) =
      (("", some "old_str not found in file"), fs) := by
  have hp : path ≠ "" := lookup_ne_empty hf
  have hvalid : ¬ (path = "" ∨ old = new) := by tauto
  have hex : pathExistsB fs path = true := by simp [pathExistsB, hf]
  have hmatch : content = pyReplace content old new ∧ old ≠ "" :=
    ⟨(pyReplace_of_not_occurs content old new hocc).symm, hold⟩
  simp only [edit_file, decodeInput, edit_file_core, dict3_path, dict3_old, dict3_new]
  rw [if_neg hvalid, hex]
  simp only [Bool.not_true, Bool.false_eq_true, if_false]
  rw [openRead_file hf]
  simp only []
  rw [if_pos hmatch]

theorem claim_c5_amended_witness :
    edit_file [("a.txt", Entry.file "abc")]
      (ToolArg.dict [("path", "a.txt"), ("old_str", "zzz"), ("new_str", "q")]) =
      (("", some "old_str not found in file"), [("a.txt", Entry.file "abc")]) :=
  claim_c5_amended [("a.txt", Entry.file "abc")] "a.txt" "zzz" "q" "abc"
    (by decide) (by decide) (by decide) (by decide)

/-- Claim C9 (confirmed): on an existing file with an empty old_str and a
non-empty new_str the validation passes (the strings differ) and the edit
path runs, not the creation path: the result is exactly "OK" with no error,
and the file is rewritten to the Python empty-pattern replacement, which
inserts new_str before every character and once at the end. -/
theorem claim_c9 (fs : FS) (path new content : String)
    (hf : FS.lookup fs path = some (Entry.file content)) (hnew : new ≠ "") :
    edit_file fs (ToolArg.dict [("path", path), ("old_str", ""), ("new_str", new)]) =
      (("OK", none), FS.insertE fs path (Entry.file (pyReplace content "" new)))
    ∧ pyReplace content "" new =
        String.join (content.data.map (fun c => new ++ String.mk [c])) ++ new := by
  have hp : path ≠ "" := lookup_ne_empty hf
  have hvalid : ¬ (path = "" ∨ ("" : String) = new) := by
    intro hc
    rcases hc with hc | hc
    · exact hp hc
    · exact hnew hc.symm
  have hex : pathExistsB fs path = true := by simp [pathExistsB, hf]
  have hnomatch : ¬ (content = pyReplace content "" new ∧ ("" : String) ≠ "") := by
    intro hc; exact hc.2 rfl
  constructor
  · simp only [edit_file, decodeInput, edit_file_core, dict3_path, dict3_old, dict3_new]
    rw [if_neg hvalid, hex]
    simp only [Bool.not_true, Bool.false_eq_true, if_false]
    rw [openRead_file hf]
    simp only []
    rw [if_neg hnomatch, openWrite_file hf]
  · simp [pyReplace]

theorem claim_c9_witness :
    edit_file [("a.txt", Entry.file "ab")]
      (ToolArg.dict [("path", "a.txt"), ("old_str", ""), ("new_str", "X")]) =
      (("OK", none), [("a.txt", Entry.file "XaXbX")]) :=
  ((claim_c9 [("a.txt", Entry.file "ab")] "a.txt" "X" "ab"
    (by decide) (by decide)).1).trans (by decide)

/-- Claim C10 (confirmed): on a path naming an existing directory, read_file
does not return content and cannot raise (the handler is total): the
existence check passes, the open fails with IsADirectoryError, and the
caught os error comes back as an (empty result, non-None error) pair whose
message is not the FileNotFound message the spec reserves for nonexistent
paths. -/
theorem claim_c10 (fs : FS) (p : String) (hd : FS.lookup fs p = some Entry.dir) :
    read_file fs (ToolArg.dict [("path", p)]) =
      (("", some ("[Errno 21] Is a directory: \x27" ++ p ++ "\x27")), fs)
    ∧ ("[Errno 21] Is a directory: \x27" ++ p ++ "\x27") ≠ "File not found: " ++ p := by
  constructor
  · have hex : pathExistsB fs p = true := by simp [pathExistsB, hd]
    have hkey : dictHasKey [("path", p)] "path" = true := rfl
    simp only [read_file, decodeInput, read_file_core, hkey, Bool.not_true,
      Bool.false_eq_true, if_false, dict1_path, hex]
    unfold FS.openRead
    rw [hd]
  · intro h
    have h2 := congrArg (fun z => z.data.head?) h
    simp [String.data_append] at h2

theorem claim_c10_witness :
    read_file [("sub", Entry.dir)] (ToolArg.dict [("path", "sub")]) =
      (("", some "[Errno 21] Is a directory: \x27sub\x27"), [("sub", Entry.dir)]) :=
  ((claim_c10 [("sub", Entry.dir)] "sub" (by decide)).1).trans (by decide)

/-- Claim C7 (confirmed): every tool handler treats a JSON text string, the
already-decoded dictionary it parses to, and UTF-8 bytes decoding to the
same JSON text identically, producing the same (result, error) pair and the
same filesystem; any other representation fails with the unknown input
format error. -/
theorem claim_c7 (fs : FS) (s : String) (d : List (String × String)) (bs : List Nat)
    (t : String) :
    (jsonLoads s = Except.ok d →
      read_file fs (ToolArg.jsonText s) = read_file fs (ToolArg.dict d)
      ∧ list_files fs (ToolArg.jsonText s) = list_files fs (ToolArg.dict d)
      ∧ edit_file fs (ToolArg.jsonText s) = edit_file fs (ToolArg.dict d))
    ∧ (utf8Decode bs = Except.ok s →
      read_file fs (ToolArg.bytes bs) = read_file fs (ToolArg.jsonText s)
      ∧ list_files fs (ToolArg.bytes bs) = list_files fs (ToolArg.jsonText s)
      ∧ edit_file fs (ToolArg.bytes bs) = edit_file fs (ToolArg.jsonText s))
    ∧ (read_file fs (ToolArg.other t) = (("", some ("Unknown input format: " ++ t)), fs)
      ∧ list_files fs (ToolArg.other t) = (("", some ("Unknown input format: " ++ t)), fs)
      ∧ edit_file fs (ToolArg.other t) = (("", some ("Unknown input format: " ++ t)), fs)) := by
  refine ⟨fun h => ⟨?_, ?_, ?_⟩, fun h => ⟨?_, ?_, ?_⟩, rfl, rfl, rfl⟩
  · simp [read_file, decodeInput, h]
  · simp [list_files, decodeInput, h]
  · simp [edit_file, decodeInput, h]
  · simp [read_file, decodeInput, h]
  · simp [list_files, decodeInput, h]
  · simp [edit_file, decodeInput, h]

theorem claim_c7_witness :
    (read_file [] (ToolArg.jsonText "\x7b\"path\": \"a.txt\"\x7d") =
      read_file [] (ToolArg.dict [("path", "a.txt")]))
    ∧ (edit_file [] (ToolArg.bytes [123, 125]) = edit_file [] (ToolArg.jsonText "\x7b\x7d"))
    ∧ (list_files [] (ToolArg.other "<class \x27int\x27>") =
        (("", some "Unknown input format: <class \x27int\x27>"), [])) :=
  ⟨((claim_c7 [] "\x7b\"path\": \"a.txt\"\x7d" [("path", "a.txt")] [] "x").1 rfl).1,
   ((claim_c7 [] "\x7b\x7d" [] [123, 125] "x").2.1 rfl).2.2,
   (claim_c7 [] "" [] [] "<class \x27int\x27>").2.2.2.1⟩

/-- Claim C6 (confirmed): on an existing directory, list_files enumerates
exactly the immediate children (non-recursive, by construction of the
listdir embedding), appends "/" to those children that are directories,
sorts the marked names ascending in the Python string order (lexicographic
by code point), and returns the json.dumps rendering of the object with
fields files (the sorted list), directory (the given path) and count (the
number of entries), with no error; the sorted list is sorted, is a
permutation of the marked children, and its length is the number of
children. -/
theorem claim_c6 (fs : FS) (d : String) (hdir : isDirB fs d = true) :
    (list_files fs (ToolArg.dict [("path", d)]) =
      ((listingJson
          (List.insertionSort strLeR ((childNames fs d).map
            (fun item => if isDirB fs (joinPath d item) then item ++ "/" else item)))
          d
          (List.insertionSort strLeR ((childNames fs d).map
            (fun item => if isDirB fs (joinPath d item) then item ++ "/" else item))).length,
        none), fs))
    ∧ List.Sorted strLeR
        (List.insertionSort strLeR ((childNames fs d).map
          (fun item => if isDirB fs (joinPath d item) then item ++ "/" else item)))
    ∧ (List.insertionSort strLeR ((childNames fs d).map
          (fun item => if isDirB fs (joinPath d item) then item ++ "/" else item))).Perm
        ((childNames fs d).map
          (fun item => if isDirB fs (joinPath d item) then item ++ "/" else item))
    ∧ (List.insertionSort strLeR ((childNames fs d).map
          (fun item => if isDirB fs (joinPath d item) then item ++ "/" else item))).length
        = (childNames fs d).length := by
  have hl : FS.lookup fs d = some Entry.dir := by
    have := hdir
    unfold isDirB at this
    exact beq_iff_eq.mp this
  have hex : pathExistsB fs d = true := by simp [pathExistsB, hl]
  refine ⟨?_, List.sorted_insertionSort strLeR _, List.perm_insertionSort strLeR _, ?_⟩
  · simp only [list_files, decodeInput, dict1_path, hex, hdir, Bool.not_true,
      Bool.false_eq_true, if_false]
  · rw [(List.perm_insertionSort strLeR _).length_eq, List.length_map]

theorem claim_c6_witness :
    list_files [("b.txt", Entry.file "B"), ("a.txt", Entry.file "A"), ("sub", Entry.dir)]
      (ToolArg.dict [("path", ".")]) =
      ((listingJson ["a.txt", "b.txt", "sub/"] "." 3, none),
        [("b.txt", Entry.file "B"), ("a.txt", Entry.file "A"), ("sub", Entry.dir)]) :=
  ((claim_c6 [("b.txt", Entry.file "B"), ("a.txt", Entry.file "A"), ("sub", Entry.dir)]
    "." (by decide)).1).trans (by decide)

theorem execute_tool_id (tools : List ToolDefinition) (fs : FS) (i n : String)
    (inp : ToolArg) : (execute_tool tools fs i n inp).1.tool_use_id = i := by
  unfold execute_tool
  split
  · rfl
  · dsimp only
    split <;> rfl

theorem processTurn_ids (tools : List ToolDefinition) (blocks : List ContentBlock) :
    ∀ fs : FS, (processTurn tools fs blocks).1.map (fun r => r.tool_use_id)
      = toolUseIds blocks := by
  induction blocks with
  | nil => intro fs; rfl
  | cons b rest ih =>
    intro fs
    cases b with
    | text s =>
      simpa [processTurn, toolUseIds, List.filterMap_cons] using ih fs
    | toolUse id name input =>
      simp only [processTurn, toolUseIds, List.filterMap_cons, List.map_cons,
        execute_tool_id]
      have := ih (execute_tool tools fs id name input).2
      simp only [toolUseIds] at this
      rw [this]

/-- Claim C8 (confirmed): dispatching one model turn produces exactly one
tool_result block per tool_use block, in the same order, each carrying the
id of its originating tool_use block; when the turn has at least one
tool_use block the loop appends exactly one user-role message holding that
list, and when it has none it appends nothing and returns to awaiting user
input. -/
theorem claim_c8 (tools : List ToolDefinition) (fs : FS) (blocks : List ContentBlock) :
    ((processTurn tools fs blocks).1.map (fun r => r.tool_use_id) = toolUseIds blocks)
    ∧ (processTurn tools fs blocks).1.length = (toolUseIds blocks).length
    ∧ (toolUseIds blocks = [] → turnFollowUp tools fs blocks = [])
    ∧ (toolUseIds blocks ≠ [] →
        turnFollowUp tools fs blocks =
          [{ role := "user", content := (processTurn tools fs blocks).1 }]) := by
  have hmap := processTurn_ids tools blocks fs
  have hlen : (processTurn tools fs blocks).1.length = (toolUseIds blocks).length := by
    rw [← hmap, List.length_map]
  refine ⟨hmap, hlen, ?_, ?_⟩
  · intro h
    have hnil : (processTurn tools fs blocks).1 = [] := by
      have := hlen
      rw [h] at this
      exact List.length_eq_zero.mp this
    simp [turnFollowUp, hnil]
  · intro h
    have hnonnil : (processTurn tools fs blocks).1 ≠ [] := by
      intro hn
      apply h
      rw [← hmap, hn]
      rfl
    simp [turnFollowUp, List.isEmpty_iff, hnonnil]

theorem claim_c8_witness :
    turnFollowUp agentTools [("a.txt", Entry.file "x")]
      [ContentBlock.text "hi",
       ContentBlock.toolUse "id1" "read_file" (ToolArg.dict [("path", "a.txt")]),
       ContentBlock.toolUse "id2" "edit_file"
         (ToolArg.dict [("path", "a.txt"), ("old_str", "x"), ("new_str", "y")])] =
      [{ role := "user",
         content := (processTurn agentTools [("a.txt", Entry.file "x")]
           [ContentBlock.text "hi",
            ContentBlock.toolUse "id1" "read_file" (ToolArg.dict [("path", "a.txt")]),
            ContentBlock.toolUse "id2" "edit_file"
              (ToolArg.dict [("path", "a.txt"), ("old_str", "x"), ("new_str", "y")])]).1 }] :=
  (claim_c8 agentTools [("a.txt", Entry.file "x")]
    [ContentBlock.text "hi",
     ContentBlock.toolUse "id1" "read_file" (ToolArg.dict [("path", "a.txt")]),
     ContentBlock.toolUse "id2" "edit_file"
       (ToolArg.dict [("path", "a.txt"), ("old_str", "x"), ("new_str", "y")])]).2.2.2
    (by decide)

/-! ## Shape lemmas for the error contract -/

theorem read_file_shape (fs : FS) (arg : ToolArg) :
    (read_file fs arg).1.1 = "" ∨ (read_file fs arg).1.2 = none := by
  unfold read_file
  cases hd : decodeInput arg with
  | error e => left; rfl
  | ok d =>
    unfold read_file_core
    dsimp only
    split
    · left; rfl
    · split
      · left; rfl
      · split
        · right; rfl
        · left; rfl

theorem list_files_shape (fs : FS) (arg : ToolArg) :
    (list_files fs arg).1.1 = "" ∨ (list_files fs arg).1.2 = none := by
  unfold list_files
  cases hd : decodeInput arg with
  | error e => left; rfl
  | ok d =>
    dsimp only
    split
    · left; rfl
    · split
      · left; rfl
      · right; rfl

theorem edit_file_shape (fs : FS) (arg : ToolArg) :
    (edit_file fs arg).1.1 = "" ∨ (edit_file fs arg).1.2 = none := by
  unfold edit_file
  cases hd : decodeInput arg with
  | error e => left; rfl
  | ok d =>
    unfold edit_file_core
    dsimp only
    split
    · left; rfl
    · split
      · split
        · right; rfl
        · left; rfl
      · split
        · left; rfl
        · split
          · left; rfl
          · split
            · right; rfl
            · left; rfl

theorem create_new_file_msg (fs : FS) (p c : String) :
    (create_new_file fs p c).1 = "Successfully created file " ++ p
    ∨ ∃ m, (create_new_file fs p c).1 = "Failed to create file: " ++ m := by
  unfold create_new_file
  dsimp only
  split
  · right; exact ⟨_, rfl⟩
  · split
    · left; rfl
    · right; exact ⟨_, rfl⟩

theorem edit_file_none_shape (fs : FS) (arg : ToolArg)
    (h : (edit_file fs arg).1.2 = none) :
    (edit_file fs arg).1.1 = "OK"
    ∨ (∃ p, (edit_file fs arg).1.1 = "Successfully created file " ++ p)
    ∨ (∃ m, (edit_file fs arg).1.1 = "Failed to create file: " ++ m) := by
  revert h
  unfold edit_file
  cases hd : decodeInput arg with
  | error e => intro h; simp at h
  | ok d =>
    unfold edit_file_core
    dsimp only
    split
    · intro h; simp at h
    · split
      · split
        · intro h
          rcases create_new_file_msg fs (dictGetD d "path" "") (dictGetD d "new_str" "")
            with h2 | h2
          · exact Or.inr (Or.inl ⟨_, h2⟩)
          · exact Or.inr (Or.inr h2)
        · intro h; simp at h
      · split
        · intro h; simp at h
        · split
          · intro h; simp at h
          · split
            · intro h; exact Or.inl rfl
            · intro h; simp at h

/-- Claim C1 counterexample: on a filesystem holding a regular file f, the
call edit_file(path written f/x, old_str empty, new_str y) takes the
creation path, os.makedirs fails because f is a file, and the handler
returns the failure text as the result together with a None error — a
failure that is not communicated via the error slot, contradicting the
claim that no handler ever returns a failure message as the result text
with a None error.  Nothing is created: the filesystem comes back
unchanged. -/
theorem claim_c1_counterexample :
    (edit_file [("f", Entry.file "hi")]
        (ToolArg.dict [("path", "f/x"), ("old_str", ""), ("new_str", "y")])).1.2 = none
    ∧ (edit_file [("f", Entry.file "hi")]
        (ToolArg.dict [("path", "f/x"), ("old_str", ""), ("new_str", "y")])).1.1 =
      "Failed to create file: [Errno 17] File exists: \x27f\x27"
    ∧ (edit_file [("f", Entry.file "hi")]
        (ToolArg.dict [("path", "f/x"), ("old_str", ""), ("new_str", "y")])).2 =
      [("f", Entry.file "hi")] :=
  ⟨by decide, by decide, by decide⟩

/-- Claim C1 as amended: the handlers are total functions of this embedding,
so they never raise past the tool boundary; whenever a handler returns a
non-None error the result text is empty; and the one exception to
failure-via-error-slot is the creation path of edit_file, whose result with
a None error is either the exact success marker "OK" of the edit path, the
creation success message, or the creation failure message ("Failed to
create file: ...") that the counterexample exhibits. -/
theorem claim_c1_amended (fs : FS) (arg : ToolArg) :
    ((read_file fs arg).1.2 ≠ none → (read_file fs arg).1.1 = "")
    ∧ ((list_files fs arg).1.2 ≠ none → (list_files fs arg).1.1 = "")
    ∧ ((edit_file fs arg).1.2 ≠ none → (edit_file fs arg).1.1 = "")
    ∧ ((edit_file fs arg).1.2 = none →
        (edit_file fs arg).1.1 = "OK"
        ∨ (∃ p, (edit_file fs arg).1.1 = "Successfully created file " ++ p)
        ∨ (∃ m, (edit_file fs arg).1.1 = "Failed to create file: " ++ m)) := by
  refine ⟨?_, ?_, ?_, edit_file_none_shape fs arg⟩
  · intro h
    rcases read_file_shape fs arg with h2 | h2
    · exact h2
    · exact absurd h2 h
  · intro h
    rcases list_files_shape fs arg with h2 | h2
    · exact h2
    · exact absurd h2 h
  · intro h
    rcases edit_file_shape fs arg with h2 | h2
    · exact h2
    · exact absurd h2 h

theorem claim_c1_amended_witness :
    (read_file [] (ToolArg.other "<class \x27list\x27>")).1.1 = ""
    ∧ (edit_file [("a.txt", Entry.file "x")]
        (ToolArg.dict [("path", "a.txt"), ("old_str", "zz"), ("new_str", "y")])).1.1 = "" :=
  ⟨(claim_c1_amended [] (ToolArg.other "<class \x27list\x27>")).1 (by decide),
   (claim_c1_amended [("a.txt", Entry.file "x")]
     (ToolArg.dict [("path", "a.txt"), ("old_str", "zz"), ("new_str", "y")])).2.2.1
     (by decide)⟩

/-! ## Creation-path analysis for claim C3 -/

theorem create_new_file_spec (fs : FS) (p c : String)
    (hne : FS.lookup fs p = none) (hp : p ≠ "") (hpd : p ≠ ".") :
    ((create_new_file fs p c).1 = "Successfully created file " ++ p →
      FS.lookup (create_new_file fs p c).2 p = some (Entry.file c))
    ∧ ((create_new_file fs p c).1 ≠ "Successfully created file " ++ p →
      (∃ m, (create_new_file fs p c).1 = "Failed to create file: " ++ m)
      ∧ ∀ cc, FS.lookup (create_new_file fs p c).2 p ≠ some (Entry.file cc)) := by
  have hstep : FS.lookup ((if dirname p ≠ "" ∧ dirname p ≠ "." then
        FS.makedirs fs (dirname p) else (fs, none)) : FS × Option String).1 p = none
      ∨ FS.lookup ((if dirname p ≠ "" ∧ dirname p ≠ "." then
        FS.makedirs fs (dirname p) else (fs, none)) : FS × Option String).1 p
        = some Entry.dir := by
    split_ifs with hif
    · rcases lookup_makedirs_or fs (dirname p) p with h | h
      · left; rw [h, hne]
      · right; exact h
    · left; exact hne
  unfold create_new_file
  dsimp only
  cases hs : (if dirname p ≠ "" ∧ dirname p ≠ "." then
      FS.makedirs fs (dirname p) else (fs, none)) with
  | mk fs1 err =>
    rw [hs] at hstep
    cases err with
    | some e =>
      dsimp only
      constructor
      · intro h
        exact absurd h (failed_ne_success e p)
      · intro h
        refine ⟨⟨e, rfl⟩, ?_⟩
        intro cc hcc
        dsimp only at hstep
        rcases hstep with h2 | h2
        · rw [hcc] at h2; exact Option.noConfusion h2
        · rw [hcc] at h2; exact Entry.noConfusion (Option.some.inj h2)
    | none =>
      dsimp only
      dsimp only at hstep
      cases hw : FS.openWrite fs1 p c with
      | ok fs2 =>
        have hfs2 : fs2 = FS.insertE fs1 p (Entry.file c) := openWrite_ok_eq hw
        dsimp only
        constructor
        · intro h
          rw [hfs2]
          exact lookup_insertE_self fs1 p (Entry.file c) hp hpd
        · intro h
          exact absurd rfl h
      | error e =>
        dsimp only
        constructor
        · intro h
          exact absurd h (failed_ne_success e p)
        · intro h
          refine ⟨⟨e, rfl⟩, ?_⟩
          intro cc hcc
          rcases hstep with h2 | h2
          · rw [hcc] at h2; exact Option.noConfusion h2
          · rw [hcc] at h2; exact Entry.noConfusion (Option.some.inj h2)

/-- Claim C3 counterexample: the empty path does not name an existing file
and its old_str is empty, yet edit_file does not create anything and does
not report success — validation rejects the call with the Invalid input
parameters error, contradicting the claim read over every path that does
not name an existing file. -/
theorem claim_c3_counterexample :
    edit_file [] (ToolArg.dict [("path", ""), ("old_str", ""), ("new_str", "hello")]) =
      (("", some "Invalid input parameters"), [])
    ∧ (some "Invalid input parameters" ≠ (none : Option String)) :=
  ⟨by decide, by decide⟩

/-- Claim C3 as amended (restricted to calls that pass validation — path
non-empty and old_str different from new_str — as the counterexample
forces, and stating what is actually guaranteed on the creation path): for
a path that does not name an existing entry, if old_str is non-empty the
tool fails with the FileNotFound error and changes nothing; if old_str is
empty the tool reports no error, and either its message is the creation
success message and the file then exists with content exactly new_str
(missing parent directories having been created), or its message is the
creation failure text ("Failed to create file: ...") and no regular file
was created at the path. -/
theorem claim_c3_amended (fs : FS) (path old new : String)
    (hne : FS.lookup fs path = none) (hp : path ≠ "") (hd : old ≠ new) :
    (old ≠ "" →
      edit_file fs (ToolArg.dict [("path", path), ("old_str", old), ("new_str", new)]) =
        (("", some ("File not found: " ++ path)), fs))
    ∧ (old = "" →
      (edit_file fs (ToolArg.dict [("path", path), ("old_str", old),
          ("new_str", new)])).1.2 = none
      ∧ ((edit_file fs (ToolArg.dict [("path", path), ("old_str", old),
            ("new_str", new)])).1.1 = "Successfully created file " ++ path →
          FS.lookup (edit_file fs (ToolArg.dict [("path", path), ("old_str", old),
            ("new_str", new)])).2 path = some (Entry.file new))
      ∧ ((edit_file fs (ToolArg.dict [("path", path), ("old_str", old),
            ("new_str", new)])).1.1 ≠ "Successfully created file " ++ path →
          (∃ m, (edit_file fs (ToolArg.dict [("path", path), ("old_str", old),
            ("new_str", new)])).1.1 = "Failed to create file: " ++ m)
          ∧ ∀ c, FS.lookup (edit_file fs (ToolArg.dict [("path", path), ("old_str", old),
            ("new_str", new)])).2 path ≠ some (Entry.file c))) := by
  have hpd : path ≠ "." := by
    intro h; rw [h] at hne; simp [FS.lookup] at hne
  have hvalid : ¬ (path = "" ∨ old = new) := by tauto
  have hex : pathExistsB fs path = false := by simp [pathExistsB, hne]
  have hcall : edit_file fs (ToolArg.dict [("path", path), ("old_str", old),
      ("new_str", new)])
      = (if old = "" then
          (((create_new_file fs path new).1, none), (create_new_file fs path new).2)
        else (("", some ("File not found: " ++ path)), fs)) := by
    simp only [edit_file, decodeInput, edit_file_core, dict3_path, dict3_old, dict3_new]
    rw [if_neg hvalid, hex]
    simp only [Bool.not_false, if_true]
  constructor
  · intro hold
    rw [hcall, if_neg hold]
  · intro h0
    rw [hcall, if_pos h0]
    exact ⟨rfl, (create_new_file_spec fs path new hne hp hpd).1,
      (create_new_file_spec fs path new hne hp hpd).2⟩

theorem claim_c3_amended_witness :
    FS.lookup (edit_file [] (ToolArg.dict [("path", "docs/notes.txt"), ("old_str", ""),
        ("new_str", "hi")])).2 "docs/notes.txt" = some (Entry.file "hi")
    ∧ edit_file [] (ToolArg.dict [("path", "missing.txt"), ("old_str", "a"),
        ("new_str", "b")]) = (("", some "File not found: missing.txt"), []) :=
  ⟨((claim_c3_amended [] "docs/notes.txt" "" "hi" (by decide) (by decide) (by decide)).2
      rfl).2.1 (by decide),
   (claim_c3_amended [] "missing.txt" "a" "b" (by decide) (by decide) (by decide)).1
      (by decide)⟩
